import Mathlib

/-!
# GULL (Geomagnetic UtiLities Library) — verification of the specification

Shallow embedding of the construction and query pipeline of `src/gull.c`:
calendar-date conversion (`date_decimal`), coefficient addressing
(`get_coeff`), dataset-header selection and coefficient reading inside
`gull_snapshot_create`, the temporal resolution step (extrapolation /
interpolation), the altitude domain check of `gull_snapshot_field`, and
`gull_snapshot_destroy`.  C `double`s are embedded as exact rationals `ℚ`,
C `int`s as `ℤ`; fallible operations return `Except GullReturn _`.
-/

namespace Gull

/-- The `enum gull_return` codes of `include/gull.h`. -/
inductive GullReturn where
  | SUCCESS
  | DOMAIN_ERROR
  | FORMAT_ERROR
  | MEMORY_ERROR
  | MISSING_DATA
  | PATH_ERROR
  deriving DecidableEq, Repr

/-! Section: DateConverter: `date_decimal` (gull.c lines 134–156) -/

/-- The `start_day` table of `date_decimal`: start day in year of a month.
`start_day[13] = {0, 31, 59, 90, 120, 151, 181, 212, 243, 273, 304, 334, 365}`.
Indices outside `0..12` are never accessed by the embedded code. -/
def start_day (m : ℤ) : ℤ :=
  if m = 0 then 0 else if m = 1 then 31 else if m = 2 then 59
  else if m = 3 then 90 else if m = 4 then 120 else if m = 5 then 151
  else if m = 6 then 181 else if m = 7 then 212 else if m = 8 then 243
  else if m = 9 then 273 else if m = 10 then 304 else if m = 11 then 334
  else if m = 12 then 365 else 0

/-- The leap-year test of `date_decimal`:
`(((year%4) == 0) && (((year%100) != 0) || ((year%400) == 0)))`, as the
0/1 integer the C code adds to day counts.  (C's truncated `%` and Lean's
`Int.emod` agree on whether a remainder is zero.) -/
def leap_year (year : ℤ) : ℤ :=
  if year % 4 = 0 ∧ (year % 100 ≠ 0 ∨ year % 400 = 0) then 1 else 0

/-- Embedding of `date_decimal (int day, int month, int year, double * date)`
(gull.c lines 134–156).  `Except.error .DOMAIN_ERROR` replaces the
`GULL_RETURN_DOMAIN_ERROR` return (on which `*date` is not written);
`Except.ok d` replaces writing `*date = d` and returning success.  The C
locals `days_in_month` and `day_in_year` are inlined. -/
def date_decimal (day month year : ℤ) : Except GullReturn ℚ :=
  if month < 1 ∨ month > 12 then .error .DOMAIN_ERROR
  else if day < 1 ∨ day > start_day month - start_day (month - 1) +
      (if month = 2 then 1 else 0) * leap_year year then .error .DOMAIN_ERROR
  else .ok ((year : ℚ) +
    ((start_day (month - 1) + day +
        (if month > 2 then leap_year year else 0) : ℤ) : ℚ) /
      (365 + (leap_year year : ℚ)))

/-- Modelled from the spec (§4.1): the leap-year rule stated as divisibility,
"year divisible by 4, and (not divisible by 100, or divisible by 400)". -/
def leapSpec (year : ℤ) : ℤ :=
  if (4 ∣ year) ∧ (¬ (100 ∣ year) ∨ (400 ∣ year)) then 1 else 0

/-- Modelled from the spec (§4.1): the number of days of month `m`
(1-based) of year `y` under the leap rule; `0` outside `1..12`. -/
def daysInMonthSpec (y m : ℤ) : ℤ :=
  if m = 1 then 31 else if m = 2 then 28 + leapSpec y else if m = 3 then 31
  else if m = 4 then 30 else if m = 5 then 31 else if m = 6 then 30
  else if m = 7 then 31 else if m = 8 then 31 else if m = 9 then 30
  else if m = 10 then 31 else if m = 11 then 30 else if m = 12 then 31
  else 0

/-- Modelled from the spec (§4.1): the 1-based ordinal day of the date
`(d, m, y)` in its year: the days of the months before `m`, plus `d`. -/
def dayOfYearSpec (y m d : ℤ) : ℤ :=
  d + ((List.range 12).map
    (fun k => if ((k : ℤ) + 1) < m then daysInMonthSpec y ((k : ℤ) + 1) else 0)).sum

/-! Section: Coefficient addressing: `get_coeff` (gull.c lines 162–166) -/

/-- Element offset (in doubles) returned by
`get_coeff(snapshot, i, j) = snapshot->coeff + 2*(i-1)*((i-1)+3) + 4*j`
(the C body decrements `i` then computes `2*i*(i+3)+4*j`),
i.e. `2·(i−1)·(i+2) + 4·j` in terms of the original degree `i`. -/
def getCoeffIndex (i j : ℤ) : ℤ :=
  2 * (i - 1) * (i + 2) + 4 * j

/-- Modelled from the spec (§3 Data model): the addressing formula the spec
states for a cell `(i, j)`: `2·(i-1)·(i+2) + 2·j` elements into a flat array
of `order·(order+3)` doubles.  Kept separate from `getCoeffIndex` (the code's
formula) so the two can be compared. -/
def specIndexC2 (i j : ℤ) : ℤ :=
  2 * (i - 1) * (i + 2) + 2 * j

/-- The validation applied to a coefficient line before `get_coeff` is called
(gull.c line 268): a parsed line (the six fields exist, `nread == 6`) is
rejected iff `j > i` or `i > order`. -/
def lineAccepted (order i j : ℤ) : Bool :=
  !(j > i) && !(i > order)

/-! Section: Snapshot structure and destruction -/

/-- The `struct gull_snapshot` payload: harmonic order, altitude bounds (km)
and the resolved coefficient buffer. -/
structure Snapshot where
  order : ℤ
  altmin : ℚ
  altmax : ℚ
  coeff : List ℚ
  deriving DecidableEq

/-- Embedding of `gull_snapshot_destroy(struct gull_snapshot ** snapshot)`
(gull.c lines 357–362).  The handle state is `none` for a NULL
`snapshot` pointer, `some none` for a handle pointing to NULL, and
`some (some s)` for a handle to a live snapshot; the function frees the
snapshot and resets `*snapshot` to NULL, and returns without any change
when `snapshot == NULL` or `*snapshot == NULL`. -/
def gull_snapshot_destroy : Option (Option Snapshot) → Option (Option Snapshot)
  | none => none
  | some none => some none
  | some (some _) => some none

/-! Section: FieldEvaluator prologue: the altitude domain check
(gull.c lines 371–385) -/

/-- Embedding of the prologue of `gull_snapshot_field`: `memset` zeroes the
caller's `magnet[3]`, then the altitude is converted from metres to km
(`altitude *= 1E-03`) and checked against the snapshot bounds.
`some (rc, out)` is an early return with code `rc` leaving the output array
holding `out`; `none` means control proceeds into the harmonic evaluation
(outside the scope of this embedding). -/
def gull_snapshot_field_check (altmin altmax altitude : ℚ)
    (magnet : ℚ × ℚ × ℚ) : Option (GullReturn × (ℚ × ℚ × ℚ)) :=
  let magnet := ((0 : ℚ), (0 : ℚ), (0 : ℚ))
  if altitude * (1 / 1000) < altmin ∨ altitude * (1 / 1000) > altmax then
    some (.DOMAIN_ERROR, magnet)
  else none

/-! Section: TemporalResolver (gull.c lines 300–334) -/

/-- A construction-time 4-slot coefficient cell
`(c0[0], c0[1], c0[2], c0[3])`. -/
structure Cell4 where
  s0 : ℚ
  s1 : ℚ
  s2 : ℚ
  s3 : ℚ
  deriving DecidableEq

/-- One cell of the extrapolation loop (lines 307–311):
`c1[0] = c0[0] + c0[2]*h; c1[1] = c0[1] + c0[3]*h`. -/
def extrapolateCell (h : ℚ) (c : Cell4) : ℚ × ℚ :=
  (c.s0 + c.s2 * h, c.s1 + c.s3 * h)

/-- One cell of the interpolation loop (lines 323–327):
`c1[0] = c0[0]*(1.-h) + c0[2]*h; c1[1] = c0[1]*(1.-h) + c0[3]*h`. -/
def interpolateCell (h : ℚ) (c : Cell4) : ℚ × ℚ :=
  (c.s0 * (1 - h) + c.s2 * h, c.s1 * (1 - h) + c.s3 * h)

/-- Result of the temporal-resolution step: resolved 2-slot coefficient
cells and the snapshot altitude range. -/
structure Resolved where
  coeff : List (ℚ × ℚ)
  altmin : ℚ
  altmax : ℚ
  deriving DecidableEq

/-- Embedding of the single-dataset branch (`ndat == 1`, lines 301–316):
extrapolation with `h = date - epoch[0]`; the altitude range is copied from
the dataset. -/
def resolveOne (date epoch0 altmin0 altmax0 : ℚ) (cells : List Cell4) :
    Resolved :=
  { coeff := cells.map (extrapolateCell (date - epoch0))
    altmin := altmin0
    altmax := altmax0 }

/-- Embedding of the two-dataset branch (lines 317–334): interpolation with
`h = (date - epoch[0]) / (epoch[1] - epoch[0])`; the altitude range is
`altmin = (altmin[0] > altmin[1]) ? altmin[0] : altmin[1]` and
`altmax = (altmax[0] < altmax[1]) ? altmax[0] : altmax[1]`. -/
def resolveTwo (date epoch0 epoch1 altmin0 altmax0 altmin1 altmax1 : ℚ)
    (cells : List Cell4) : Resolved :=
  { coeff := cells.map (interpolateCell ((date - epoch0) / (epoch1 - epoch0)))
    altmin := if altmin0 > altmin1 then altmin0 else altmin1
    altmax := if altmax0 < altmax1 then altmax0 else altmax1 }

/-! Section: ModelFileParser: dataset-header selection
(gull.c lines 196–226) -/

/-- A parsed dataset header line (recognised by three leading spaces;
`sscanf` read 7 fields `epoch nmax1 nmax2 yrmin yrmax altmin altmax`,
skipping one). -/
structure Header where
  epoch : ℚ
  nmax1 : ℤ
  nmax2 : ℤ
  yrmin : ℚ
  yrmax : ℚ
  altmin : ℚ
  altmax : ℚ
  deriving DecidableEq

/-- Embedding of the dataset-selection loop of `gull_snapshot_create`: the
headers of the file in file order are scanned with the accumulator `acc`
holding the accepted datasets (`ndat = acc.length`).  A header is skipped
when `ndat == 0` and the target `date` is outside `[yrmin, yrmax]`;
otherwise it is accepted, and the scan breaks when `ndat == 2` or
`nmax2[0] > 0`. -/
def scanHeaders (date : ℚ) : List Header → List Header → List Header
  | [], acc => acc
  | hd :: rest, acc =>
    if acc.length = 0 ∧ (date < hd.yrmin ∨ date > hd.yrmax) then
      scanHeaders date rest acc
    else
      match acc with
      | [] => if hd.nmax2 > 0 then [hd] else scanHeaders date rest [hd]
      | h0 :: _ => [h0, hd]

/-- Embedding of the post-scan check (lines 223–226):
`if ((ndat == 0) || ((ndat == 1) && (nmax2[0] <= 0)))` the construction
fails with `GULL_RETURN_MISSING_DATA`; otherwise the accepted datasets are
used. -/
def selectDatasets (date : ℚ) (headers : List Header) :
    Except GullReturn (List Header) :=
  match scanHeaders date headers [] with
  | [] => .error .MISSING_DATA
  | [h0] => if h0.nmax2 ≤ 0 then .error .MISSING_DATA else .ok [h0]
  | ds => .ok ds

/-! Section: ModelFileParser: coefficient reading
(gull.c lines 247–296, single-dataset case) -/

/-- A parsed coefficient line: `sscanf` read the 6 fields
`i j g1 h1 g2 h2` (`nread == 6`). -/
structure CoeffLine where
  i : ℤ
  j : ℤ
  g1 : ℚ
  h1 : ℚ
  g2 : ℚ
  h2 : ℚ
  deriving DecidableEq

/-- The 4-double store `p[0] = a; p[1] = b; p[2] = c; p[3] = d` at element
offset `p` of the coefficient buffer, viewed as a total map from element
offsets to values. -/
def write4 (store : ℤ → ℚ) (p : ℤ) (a b c d : ℚ) : ℤ → ℚ :=
  fun x =>
    if x = p then a
    else if x = p + 1 then b
    else if x = p + 2 then c
    else if x = p + 3 then d
    else store x

/-- Embedding of the coefficient-reading loop for the single-dataset case
(`ndat == 1`, lines 254–296): each parsed line is validated
(`nread == 6`, `j <= i`, `i <= order`), addressed through `get_coeff`,
checked for a duplicate (any of the four slots already non-zero is a
`GULL_RETURN_FORMAT_ERROR`) and stored.  The buffer is the zero-initialised
(`memset`) coefficient array as a total map from element offsets. -/
def readCoeffs1 (order : ℤ) :
    List CoeffLine → (ℤ → ℚ) → Except GullReturn (ℤ → ℚ)
  | [], store => .ok store
  | l :: rest, store =>
    if l.j > l.i ∨ l.i > order then .error .FORMAT_ERROR
    else if store (getCoeffIndex l.i l.j) ≠ 0 ∨
        store (getCoeffIndex l.i l.j + 1) ≠ 0 ∨
        store (getCoeffIndex l.i l.j + 2) ≠ 0 ∨
        store (getCoeffIndex l.i l.j + 3) ≠ 0 then .error .FORMAT_ERROR
    else readCoeffs1 order rest
      (write4 store (getCoeffIndex l.i l.j) l.g1 l.h1 l.g2 l.h2)

end Gull

namespace Gull

/-! Claims C6 — `date_decimal` correctness -/

theorem leap_eq_leapSpec (y : ℤ) : leap_year y = leapSpec y := by
  simp only [leap_year, leapSpec, Int.dvd_iff_emod_eq_zero, Ne]

theorem leap_zero_or_one (y : ℤ) : leap_year y = 0 ∨ leap_year y = 1 := by
  unfold leap_year; split_ifs <;> simp

/-- The code's `days_in_month` expression agrees with the month-length table
of the spec, for every month in range. -/
theorem days_in_month_bridge (y m : ℤ) (h1 : 1 ≤ m) (h2 : m ≤ 12) :
    start_day m - start_day (m - 1) + (if m = 2 then 1 else 0) * leap_year y =
      daysInMonthSpec y m := by
  rw [leap_eq_leapSpec]
  interval_cases m <;> simp [start_day, daysInMonthSpec]

/-- The code's `day_in_year` expression agrees with the 1-based ordinal day
of the spec, for every month in range. -/
theorem day_of_year_bridge (y m d : ℤ) (h1 : 1 ≤ m) (h2 : m ≤ 12) :
    start_day (m - 1) + d + (if m > 2 then leap_year y else 0) =
      dayOfYearSpec y m d := by
  rw [leap_eq_leapSpec]
  have hr : List.range 12 = [0, 1, 2, 3, 4, 5, 6, 7, 8, 9, 10, 11] := rfl
  interval_cases m <;>
    simp [start_day, dayOfYearSpec, daysInMonthSpec, hr] <;> ring

theorem date_decimal_error_iff (day month year : ℤ) :
    date_decimal day month year = .error .DOMAIN_ERROR ↔
      month < 1 ∨ 12 < month ∨ day < 1 ∨ daysInMonthSpec year month < day := by
  unfold date_decimal
  by_cases h1 : month < 1 ∨ month > 12
  · rw [if_pos h1]
    exact ⟨fun _ => by omega, fun _ => rfl⟩
  · have hb := days_in_month_bridge year month (by omega) (by omega)
    by_cases h2 : day < 1 ∨ day > start_day month - start_day (month - 1) +
      (if month = 2 then 1 else 0) * leap_year year
    · rw [if_neg h1, if_pos h2]
      rw [hb] at h2
      exact ⟨fun _ => by omega, fun _ => rfl⟩
    · rw [if_neg h1, if_neg h2]
      rw [hb] at h2
      exact ⟨fun h => by simp at h, fun h => by omega⟩

theorem date_decimal_ok (day month year : ℤ)
    (h1 : 1 ≤ month) (h2 : month ≤ 12) (h3 : 1 ≤ day)
    (h4 : day ≤ daysInMonthSpec year month) :
    date_decimal day month year =
      .ok ((year : ℚ) + (dayOfYearSpec year month day : ℚ)
        / (365 + (leapSpec year : ℚ))) := by
  unfold date_decimal
  rw [if_neg (by omega)]
  rw [if_neg (by rw [days_in_month_bridge year month h1 h2]; omega)]
  rw [day_of_year_bridge year month day h1 h2, leap_eq_leapSpec]

/-- The bounds `1 ≤ day_in_year ≤ 365 + leap` for every valid date. -/
theorem day_in_year_bounds (y m d : ℤ) (h1 : 1 ≤ m) (h2 : m ≤ 12) (hd1 : 1 ≤ d)
    (hd2 : d ≤ start_day m - start_day (m - 1) +
      (if m = 2 then 1 else 0) * leap_year y) :
    1 ≤ start_day (m - 1) + d + (if m > 2 then leap_year y else 0) ∧
    start_day (m - 1) + d + (if m > 2 then leap_year y else 0) ≤
      365 + leap_year y := by
  rcases leap_zero_or_one y with hL | hL <;> rw [hL] at hd2 ⊢ <;>
    interval_cases m <;> norm_num [start_day] at hd2 ⊢ <;> omega

/-- Claim C6: the decimal-year conversion `date_decimal` returns `DOMAIN_ERROR`
exactly when the month is outside `[1, 12]` or the day is outside
`[1, days_in_month]` under the leap rule (year divisible by 4 and either not
divisible by 100 or divisible by 400); on every valid calendar date it
returns `year + day_of_year / (365 + leap)` with `day_of_year` the 1-based
ordinal day (the embedding is a pure function, mirroring the side-effect-free
C routine). -/
theorem date_decimal_correct (day month year : ℤ) :
    (date_decimal day month year = .error .DOMAIN_ERROR ↔
      month < 1 ∨ 12 < month ∨ day < 1 ∨ daysInMonthSpec year month < day) ∧
    (1 ≤ month → month ≤ 12 → 1 ≤ day → day ≤ daysInMonthSpec year month →
      date_decimal day month year =
        .ok ((year : ℚ) + (dayOfYearSpec year month day : ℚ)
          / (365 + (leapSpec year : ℚ)))) :=
  ⟨date_decimal_error_iff day month year, date_decimal_ok day month year⟩

/-- Witness for `date_decimal_correct`: Feb 29, 2020 (a leap year) is valid
and maps to `2020 + 60/366`. -/
theorem date_decimal_correct_witness :
    date_decimal 29 2 2020 =
      .ok (((2020 : ℤ) : ℚ) + ((dayOfYearSpec 2020 2 29 : ℤ) : ℚ)
        / (365 + ((leapSpec 2020 : ℤ) : ℚ))) :=
  (date_decimal_correct 29 2 2020).2 (by decide) (by decide) (by decide)
    (by decide)

/-- Claim C10: every accepted date yields a decimal year in `(year, year + 1]`:
strictly greater than `year`, at most `year + 1`; and December 31 of any
year (leap or not) yields exactly `year + 1`. -/
theorem date_decimal_interval :
    (∀ day month year : ℤ, ∀ q : ℚ,
      date_decimal day month year = .ok q →
        (year : ℚ) < q ∧ q ≤ (year : ℚ) + 1) ∧
    (∀ year : ℤ, date_decimal 31 12 year = .ok ((year : ℚ) + 1)) := by
  constructor
  · intro day month year q h
    unfold date_decimal at h
    by_cases h1 : month < 1 ∨ month > 12
    · rw [if_pos h1] at h; exact absurd h (by simp)
    · by_cases h2 : day < 1 ∨ day > start_day month - start_day (month - 1) +
        (if month = 2 then 1 else 0) * leap_year year
      · rw [if_neg h1, if_pos h2] at h; exact absurd h (by simp)
      · rw [if_neg h1, if_neg h2, Except.ok.injEq] at h
        subst h
        obtain ⟨hlo, hhi⟩ := day_in_year_bounds year month day
          (by omega) (by omega) (by omega) (by omega)
        have hL01 := leap_zero_or_one year
        have hden : (0 : ℚ) < 365 + (leap_year year : ℚ) := by
          rcases hL01 with hL | hL <;> rw [hL] <;> norm_num
        constructor
        · have : (0 : ℚ) < ((start_day (month - 1) + day +
              (if month > 2 then leap_year year else 0) : ℤ) : ℚ) /
              (365 + (leap_year year : ℚ)) := by
            apply div_pos _ hden
            exact_mod_cast lt_of_lt_of_le zero_lt_one hlo
          linarith
        · have : ((start_day (month - 1) + day +
              (if month > 2 then leap_year year else 0) : ℤ) : ℚ) /
              (365 + (leap_year year : ℚ)) ≤ 1 := by
            rw [div_le_one hden]
            push_cast
            exact_mod_cast hhi
          linarith
  · intro year
    rcases leap_zero_or_one year with hL | hL <;>
      · unfold date_decimal
        rw [hL]
        norm_num [start_day]

/-- Witness for `date_decimal_interval`: Jan 1, 2021 resolves to
`2021 + 1/365`, which lies in `(2021, 2022]`. -/
theorem date_decimal_interval_witness :
    ((2021 : ℤ) : ℚ) < (2021 : ℚ) + 1 / 365 ∧
      (2021 : ℚ) + 1 / 365 ≤ ((2021 : ℤ) : ℚ) + 1 :=
  date_decimal_interval.1 1 1 2021 ((2021 : ℚ) + 1 / 365) (by
    unfold date_decimal leap_year
    norm_num [start_day])

/-! Claims C2 / C3 — coefficient addressing -/

/-- Claim C2, counterexample: the claim's addressing formula is not the code's.
`get_coeff` at `(i, j) = (1, 1)` yields element offset `4`, not the
`2·(i-1)·(i+2) + 2·j = 2` the spec states; moreover the claimed bound fails
on the claimed domain `0 ≤ j ≤ i ≤ order`: at `(0, 0)` the code's offset is
negative, and the spec's own formula at `(2, 2)` exceeds an
`order·(order+3) = 10` element array for `order = 2` (offset `12`). -/
theorem get_coeff_claim_counterexample :
    getCoeffIndex 1 1 ≠ specIndexC2 1 1 ∧
    getCoeffIndex 0 0 < 0 ∧
    ¬(specIndexC2 2 2 + 2 ≤ 2 * (2 + 3)) := by decide

/-- Claim C2, amended: for every `order` and all pairs `(i, j)` with
`1 ≤ i ≤ order` and `0 ≤ j ≤ i`, `get_coeff` computes the element offset
`2·(i-1)·(i+2) + 4·j` into the construction-time flat array of
`2·order·(order+3)` doubles; each 4-slot cell lies inside the array, the
offset is a multiple of 4 (cells of 4 consecutive doubles), and the map is
injective — no two `(i, j)` pairs collide. -/
theorem get_coeff_addressing :
    (∀ order i j : ℤ, 1 ≤ i → i ≤ order → 0 ≤ j → j ≤ i →
      0 ≤ getCoeffIndex i j ∧
      getCoeffIndex i j + 4 ≤ 2 * order * (order + 3) ∧
      (4 : ℤ) ∣ getCoeffIndex i j) ∧
    (∀ i j i' j' : ℤ, 1 ≤ i → 0 ≤ j → j ≤ i → 1 ≤ i' → 0 ≤ j' → j' ≤ i' →
      getCoeffIndex i j = getCoeffIndex i' j' → i = i' ∧ j = j') := by
  constructor
  · intro order i j hi hio hj hji
    refine ⟨?_, ?_, ?_⟩
    · unfold getCoeffIndex
      nlinarith [mul_nonneg (show (0:ℤ) ≤ i - 1 by linarith)
        (show (0:ℤ) ≤ i + 2 by linarith)]
    · unfold getCoeffIndex
      nlinarith [mul_nonneg (show (0:ℤ) ≤ order - i by linarith)
        (show (0:ℤ) ≤ order + i + 3 by linarith)]
    · unfold getCoeffIndex
      rcases Int.even_or_odd i with ⟨r, hr⟩ | ⟨r, hr⟩
      · exact ⟨(r + r - 1) * (r + 1) + j, by rw [hr]; ring⟩
      · exact ⟨r * (2 * r + 3) + j, by rw [hr]; ring⟩
  · intro i j i' j' hi hj hji hi' hj' hji' heq
    unfold getCoeffIndex at heq
    have hii : i = i' := by
      rcases lt_trichotomy i i' with h | h | h
      · exfalso
        nlinarith [mul_nonneg (show (0:ℤ) ≤ i' - i - 1 by linarith)
          (show (0:ℤ) ≤ i' + i + 2 by linarith)]
      · exact h
      · exfalso
        nlinarith [mul_nonneg (show (0:ℤ) ≤ i - i' - 1 by linarith)
          (show (0:ℤ) ≤ i + i' + 2 by linarith)]
    refine ⟨hii, ?_⟩
    rw [hii] at heq
    nlinarith [heq]

/-- Witness for `get_coeff_addressing`: at `order = 2`, `(i, j) = (2, 1)`
the offset is in bounds, 4-aligned. -/
theorem get_coeff_addressing_witness :
    0 ≤ getCoeffIndex 2 1 ∧
    getCoeffIndex 2 1 + 4 ≤ 2 * 2 * (2 + 3) ∧
    (4 : ℤ) ∣ getCoeffIndex 2 1 :=
  get_coeff_addressing.1 2 2 1 (by decide) (by decide) (by decide) (by decide)

/-- Claim C3: the line validation of `gull_snapshot_create` (fields parsed,
`j ≤ i`, `i ≤ order`) accepts the coefficient line `(i, j) = (0, 0)` for any
`order ≥ 0`, and `get_coeff` then computes the element offset `-4`: four
doubles *before* the coefficient buffer.  An accepted line can therefore
address memory outside the allocated `2·order·(order+3)`-double buffer. -/
theorem accepted_line_out_of_bounds :
    lineAccepted 1 0 0 = true ∧
    getCoeffIndex 0 0 = -4 ∧
    getCoeffIndex 0 0 < 0 := by decide

/-! Claims C9 — `gull_snapshot_destroy` idempotence -/

/-- Claim C9: `gull_snapshot_destroy` is idempotent at the public interface:
a first call resets a live handle to NULL, and a second call — or a call on
a NULL handle, or on a handle pointing to NULL — is a no-op that changes
nothing. -/
theorem destroy_idempotent :
    (∀ s : Snapshot, gull_snapshot_destroy (some (some s)) = some none) ∧
    (∀ h : Option (Option Snapshot),
      gull_snapshot_destroy (gull_snapshot_destroy h) =
        gull_snapshot_destroy h) ∧
    gull_snapshot_destroy none = none ∧
    gull_snapshot_destroy (some none) = some none := by
  refine ⟨fun _ => rfl, fun h => ?_, rfl, rfl⟩
  rcases h with _ | (_ | s) <;> rfl

/-! Claims C1 — the altitude domain check of `gull_snapshot_field` -/

/-- Claim C1, counterexample: on an out-of-range altitude
(5000 m = 5 km against bounds `[0 km, 1 km]`), `gull_snapshot_field`
returns `DOMAIN_ERROR` but does *not* leave the caller's output unchanged:
the `memset` at function entry has zeroed it, so an initial `(1, 1, 1)`
comes back `(0, 0, 0)`. -/
theorem field_check_counterexample :
    gull_snapshot_field_check 0 1 5000 (1, 1, 1) =
      some (.DOMAIN_ERROR, (0, 0, 0)) ∧
    ((0 : ℚ), (0 : ℚ), (0 : ℚ)) ≠ ((1 : ℚ), (1 : ℚ), (1 : ℚ)) := by
  constructor
  · unfold gull_snapshot_field_check
    norm_num
  · simp

/-- Claim C1, amended: for every snapshot and every query whose altitude
(metres, converted to km) lies outside `[altitude_min, altitude_max]`,
`gull_snapshot_field` returns `DOMAIN_ERROR` with the caller's
three-component output array zeroed (the entry `memset` overwrites it),
whatever it held before the call. -/
theorem field_check_domain_error (altmin altmax altitude : ℚ)
    (magnet : ℚ × ℚ × ℚ)
    (h : altitude * (1 / 1000) < altmin ∨ altitude * (1 / 1000) > altmax) :
    gull_snapshot_field_check altmin altmax altitude magnet =
      some (.DOMAIN_ERROR, (0, 0, 0)) := by
  unfold gull_snapshot_field_check
  rw [if_pos h]

/-- Witness for `field_check_domain_error`: altitude 5000 m against bounds
`[0 km, 1 km]`. -/
theorem field_check_domain_error_witness :
    gull_snapshot_field_check 0 1 5000 (1, 1, 1) =
      some (.DOMAIN_ERROR, (0, 0, 0)) :=
  field_check_domain_error 0 1 5000 (1, 1, 1) (by norm_num)

/-! Claims C8 — single-dataset extrapolation -/

/-- Claim C8: in the single-dataset case every cell resolves to
`g = g1 + g2·(date − epoch)` and `h = h1 + h2·(date − epoch)`, the
deviation from the base values is linear in the time delta (doubling
`date − epoch` doubles the coefficient delta), and the altitude range is
copied directly from the dataset. -/
theorem resolve_one_linear :
    (∀ date epoch0 altmin0 altmax0 : ℚ, ∀ cells : List Cell4,
      (resolveOne date epoch0 altmin0 altmax0 cells).coeff =
        cells.map (fun c =>
          (c.s0 + c.s2 * (date - epoch0), c.s1 + c.s3 * (date - epoch0))) ∧
      (resolveOne date epoch0 altmin0 altmax0 cells).altmin = altmin0 ∧
      (resolveOne date epoch0 altmin0 altmax0 cells).altmax = altmax0) ∧
    (∀ epoch0 d : ℚ, ∀ c : Cell4,
      (extrapolateCell (epoch0 + 2 * d - epoch0) c).1 - c.s0 =
        2 * ((extrapolateCell (epoch0 + d - epoch0) c).1 - c.s0) ∧
      (extrapolateCell (epoch0 + 2 * d - epoch0) c).2 - c.s1 =
        2 * ((extrapolateCell (epoch0 + d - epoch0) c).2 - c.s1)) := by
  refine ⟨fun date epoch0 altmin0 altmax0 cells => ⟨rfl, rfl, rfl⟩,
    fun epoch0 d c => ⟨?_, ?_⟩⟩ <;>
    · unfold extrapolateCell
      ring

/-! Claims C7 — two-dataset interpolation -/

/-- Claim C7: in the two-dataset case the resolver blends with
`h = (date − epoch0)/(epoch1 − epoch0)`: at `date = epoch0` (`h = 0`) every
resolved cell equals the epoch-0 raw coefficients exactly, at
`date = epoch1` (`h = 1`) it equals the epoch-1 raw coefficients exactly;
and the snapshot altitude range is the intersection
`max(altmin0, altmin1) .. min(altmax0, altmax1)`. -/
theorem resolve_two_endpoints :
    (∀ epoch0 epoch1 altmin0 altmax0 altmin1 altmax1 : ℚ,
      ∀ cells : List Cell4, epoch0 ≠ epoch1 →
      (resolveTwo epoch0 epoch0 epoch1 altmin0 altmax0 altmin1 altmax1
          cells).coeff = cells.map (fun c => (c.s0, c.s1)) ∧
      (resolveTwo epoch1 epoch0 epoch1 altmin0 altmax0 altmin1 altmax1
          cells).coeff = cells.map (fun c => (c.s2, c.s3))) ∧
    (∀ date epoch0 epoch1 altmin0 altmax0 altmin1 altmax1 : ℚ,
      ∀ cells : List Cell4,
      (resolveTwo date epoch0 epoch1 altmin0 altmax0 altmin1 altmax1
          cells).altmin = max altmin0 altmin1 ∧
      (resolveTwo date epoch0 epoch1 altmin0 altmax0 altmin1 altmax1
          cells).altmax = min altmax0 altmax1) := by
  constructor
  · intro epoch0 epoch1 altmin0 altmax0 altmin1 altmax1 cells hne
    have hzero : (epoch0 - epoch0) / (epoch1 - epoch0) = 0 := by
      rw [sub_self, zero_div]
    have hone : (epoch1 - epoch0) / (epoch1 - epoch0) = 1 :=
      div_self (sub_ne_zero.mpr (Ne.symm hne))
    constructor
    · show cells.map (interpolateCell ((epoch0 - epoch0) / (epoch1 - epoch0)))
        = cells.map (fun c => (c.s0, c.s1))
      rw [hzero]
      refine congrArg (List.map · cells) (funext fun c => ?_)
      unfold interpolateCell
      rw [Prod.mk.injEq]
      constructor <;> ring
    · show cells.map (interpolateCell ((epoch1 - epoch0) / (epoch1 - epoch0)))
        = cells.map (fun c => (c.s2, c.s3))
      rw [hone]
      refine congrArg (List.map · cells) (funext fun c => ?_)
      unfold interpolateCell
      rw [Prod.mk.injEq]
      constructor <;> ring
  · intro date epoch0 epoch1 altmin0 altmax0 altmin1 altmax1 cells
    constructor
    · show (if altmin0 > altmin1 then altmin0 else altmin1) =
        max altmin0 altmin1
      by_cases hab : altmin0 > altmin1
      · rw [if_pos hab, max_eq_left hab.le]
      · rw [if_neg hab, max_eq_right (not_lt.mp hab)]
    · show (if altmax0 < altmax1 then altmax0 else altmax1) =
        min altmax0 altmax1
      by_cases hab : altmax0 < altmax1
      · rw [if_pos hab, min_eq_left hab.le]
      · rw [if_neg hab, min_eq_right (not_lt.mp hab)]

/-- Witness for `resolve_two_endpoints`: epochs 2015 and 2020 with a single
cell `(1, 2, 3, 4)`; at the two epochs the resolved cell is `(1, 2)` and
`(3, 4)` respectively. -/
theorem resolve_two_endpoints_witness :
    (resolveTwo 2015 2015 2020 0 600 (-1) 500 [⟨1, 2, 3, 4⟩]).coeff =
      [((1 : ℚ), (2 : ℚ))] ∧
    (resolveTwo 2020 2015 2020 0 600 (-1) 500 [⟨1, 2, 3, 4⟩]).coeff =
      [((3 : ℚ), (4 : ℚ))] := by
  have h := resolve_two_endpoints.1 2015 2020 0 600 (-1) 500 [⟨1, 2, 3, 4⟩]
    (by norm_num)
  simpa using h

/-! Claims C5 — dataset selection and the missing-data check -/

/-- Claim C5: the header scan skips an out-of-range header only while no
dataset has been accepted yet; once one is accepted the next header is
taken unconditionally and the scan stops at two accepted datasets; an
accepted first dataset with `nmax2 > 0` stops the scan immediately, one
with `nmax2 ≤ 0` keeps scanning for a second dataset; and
`gull_snapshot_create` fails with `MISSING_DATA` exactly when the scan
accepts nothing, or accepts exactly one dataset whose `nmax2 ≤ 0`. -/
theorem dataset_selection :
    (∀ date : ℚ, ∀ hd : Header, ∀ rest : List Header,
      (date < hd.yrmin ∨ date > hd.yrmax) →
      scanHeaders date (hd :: rest) [] = scanHeaders date rest []) ∧
    (∀ date : ℚ, ∀ hd h0 : Header, ∀ rest : List Header,
      scanHeaders date (hd :: rest) [h0] = [h0, hd]) ∧
    (∀ date : ℚ, ∀ hd : Header, ∀ rest : List Header,
      hd.yrmin ≤ date → date ≤ hd.yrmax → 0 < hd.nmax2 →
      scanHeaders date (hd :: rest) [] = [hd]) ∧
    (∀ date : ℚ, ∀ hd : Header, ∀ rest : List Header,
      hd.yrmin ≤ date → date ≤ hd.yrmax → hd.nmax2 ≤ 0 →
      scanHeaders date (hd :: rest) [] = scanHeaders date rest [hd]) ∧
    (∀ date : ℚ, ∀ headers : List Header,
      selectDatasets date headers = .error .MISSING_DATA ↔
        scanHeaders date headers [] = [] ∨
        ∃ h0, scanHeaders date headers [] = [h0] ∧ h0.nmax2 ≤ 0) := by
  refine ⟨?_, ?_, ?_, ?_, ?_⟩
  · intro date hd rest h
    show (if ([] : List Header).length = 0 ∧
        (date < hd.yrmin ∨ date > hd.yrmax) then
        scanHeaders date rest []
      else if hd.nmax2 > 0 then [hd] else scanHeaders date rest [hd]) =
      scanHeaders date rest []
    rw [if_pos ⟨rfl, h⟩]
  · intro date hd h0 rest
    show (if ([h0] : List Header).length = 0 ∧
        (date < hd.yrmin ∨ date > hd.yrmax) then
        scanHeaders date rest [h0]
      else [h0, hd]) = [h0, hd]
    rw [if_neg (by simp)]
  · intro date hd rest h1 h2 h3
    show (if ([] : List Header).length = 0 ∧
        (date < hd.yrmin ∨ date > hd.yrmax) then
        scanHeaders date rest []
      else if hd.nmax2 > 0 then [hd] else scanHeaders date rest [hd]) = [hd]
    rw [if_neg (by simp; exact ⟨h1, h2⟩)]
    exact if_pos h3
  · intro date hd rest h1 h2 h3
    show (if ([] : List Header).length = 0 ∧
        (date < hd.yrmin ∨ date > hd.yrmax) then
        scanHeaders date rest []
      else if hd.nmax2 > 0 then [hd] else scanHeaders date rest [hd]) =
      scanHeaders date rest [hd]
    rw [if_neg (by simp; exact ⟨h1, h2⟩)]
    exact if_neg (not_lt.mpr h3)
  · intro date headers
    cases hscan : scanHeaders date headers [] with
    | nil => simp [selectDatasets, hscan]
    | cons h0 tl =>
      cases tl with
      | nil =>
        by_cases hn : h0.nmax2 ≤ 0
        · simp [selectDatasets, hscan, hn]
        · simp [selectDatasets, hscan, hn]
      | cons h1 tl' => simp [selectDatasets, hscan]

/-- Witness for `dataset_selection`: a header valid for `[2015, 2020]` is
skipped for target year 2030 when nothing is accepted yet, and an in-range
self-sufficient header (`nmax2 = 13 > 0`) stops the scan at once. -/
theorem dataset_selection_witness :
    scanHeaders 2030 [⟨2015, 13, 0, 2015, 2020, -1, 600⟩] [] =
      scanHeaders 2030 [] [] ∧
    scanHeaders 2017 [⟨2015, 13, 13, 2015, 2020, -1, 600⟩,
        ⟨2020, 12, 0, 2020, 2025, -1, 600⟩] [] =
      [⟨2015, 13, 13, 2015, 2020, -1, 600⟩] :=
  ⟨dataset_selection.1 2030 ⟨2015, 13, 0, 2015, 2020, -1, 600⟩ []
      (Or.inr (by norm_num)),
   dataset_selection.2.2.1 2017 ⟨2015, 13, 13, 2015, 2020, -1, 600⟩
      [⟨2020, 12, 0, 2020, 2025, -1, 600⟩]
      (by norm_num) (by norm_num) (by norm_num)⟩

/-! Claims C4 — duplicate-coefficient detection -/

theorem write4_at0 (s : ℤ → ℚ) (p : ℤ) (a b c d : ℚ) :
    write4 s p a b c d p = a := by
  unfold write4; rw [if_pos rfl]

theorem write4_at1 (s : ℤ → ℚ) (p : ℤ) (a b c d : ℚ) :
    write4 s p a b c d (p + 1) = b := by
  unfold write4; rw [if_neg (by omega), if_pos rfl]

theorem write4_at2 (s : ℤ → ℚ) (p : ℤ) (a b c d : ℚ) :
    write4 s p a b c d (p + 2) = c := by
  unfold write4; rw [if_neg (by omega), if_neg (by omega), if_pos rfl]

theorem write4_at3 (s : ℤ → ℚ) (p : ℤ) (a b c d : ℚ) :
    write4 s p a b c d (p + 3) = d := by
  unfold write4
  rw [if_neg (by omega), if_neg (by omega), if_neg (by omega), if_pos rfl]

theorem write4_other (s : ℤ → ℚ) (p : ℤ) (a b c d : ℚ) (x : ℤ)
    (h0 : x ≠ p) (h1 : x ≠ p + 1) (h2 : x ≠ p + 2) (h3 : x ≠ p + 3) :
    write4 s p a b c d x = s x := by
  unfold write4; rw [if_neg h0, if_neg h1, if_neg h2, if_neg h3]

/-- Once any of the four slots of the cell of `(i, j)` is non-zero, the
coefficient-reading loop fails with `FORMAT_ERROR` on every line list that
still contains a line carrying that same `(i, j)` pair: a successful write
never dirties a non-zero slot (the duplicate check would have fired), so the
non-zero slot survives until the repeated line is reached. -/
theorem readCoeffs1_dup_error (order i j : ℤ) (ls : List CoeffLine) :
    ∀ s : ℤ → ℚ,
    (s (getCoeffIndex i j) ≠ 0 ∨ s (getCoeffIndex i j + 1) ≠ 0 ∨
     s (getCoeffIndex i j + 2) ≠ 0 ∨ s (getCoeffIndex i j + 3) ≠ 0) →
    (∃ l ∈ ls, l.i = i ∧ l.j = j) →
    readCoeffs1 order ls s = .error .FORMAT_ERROR := by
  induction ls with
  | nil =>
    intro s _ hmem
    rcases hmem with ⟨l, hl, _⟩
    simp at hl
  | cons hd tl ih =>
    intro s hcell hmem
    unfold readCoeffs1
    by_cases hv : hd.j > hd.i ∨ hd.i > order
    · rw [if_pos hv]
    · rw [if_neg hv]
      by_cases hdup : s (getCoeffIndex hd.i hd.j) ≠ 0 ∨
          s (getCoeffIndex hd.i hd.j + 1) ≠ 0 ∨
          s (getCoeffIndex hd.i hd.j + 2) ≠ 0 ∨
          s (getCoeffIndex hd.i hd.j + 3) ≠ 0
      · rw [if_pos hdup]
      · rw [if_neg hdup]
        push_neg at hdup
        obtain ⟨hz0, hz1, hz2, hz3⟩ := hdup
        rcases hmem with ⟨l, hl, hli, hlj⟩
        rcases List.mem_cons.mp hl with rfl | hl'
        · exfalso
          rw [hli, hlj] at hz0 hz1 hz2 hz3
          rcases hcell with h | h | h | h <;> exact h (by assumption)
        · apply ih _ _ ⟨l, hl', hli, hlj⟩
          have hne : ∀ t : ℤ, s t ≠ 0 →
              write4 s (getCoeffIndex hd.i hd.j) hd.g1 hd.h1 hd.g2 hd.h2 t =
                s t := by
            intro t ht
            apply write4_other
            · intro he; rw [he] at ht; exact ht hz0
            · intro he; rw [he] at ht; exact ht hz1
            · intro he; rw [he] at ht; exact ht hz2
            · intro he; rw [he] at ht; exact ht hz3
          rcases hcell with h | h | h | h
          · exact Or.inl (by rw [hne _ h]; exact h)
          · exact Or.inr (Or.inl (by rw [hne _ h]; exact h))
          · exact Or.inr (Or.inr (Or.inl (by rw [hne _ h]; exact h)))
          · exact Or.inr (Or.inr (Or.inr (by rw [hne _ h]; exact h)))

/-- Claim C4, counterexample: a dataset whose first line stores all-zero
coefficients for `(i, j) = (1, 0)` and whose second line repeats `(1, 0)` is
*not* rejected: the duplicate check tests for a non-zero cell, and the cell
is still all-zero, so the loop succeeds instead of returning
`FORMAT_ERROR`. -/
theorem duplicate_line_counterexample :
    readCoeffs1 1 [⟨1, 0, 0, 0, 0, 0⟩, ⟨1, 0, 1, 2, 3, 4⟩] (fun _ => 0) ≠
      .error .FORMAT_ERROR := by
  norm_num [readCoeffs1, write4, getCoeffIndex]
  exact fun h => Except.noConfusion h

/-- Claim C4, amended: during construction, a coefficient line repeating the
`(i, j)` pair of an earlier accepted line of the same dataset makes the
loop return `FORMAT_ERROR`, *provided* the earlier line stored at least one
non-zero value (a cell already non-zero being written again is the
duplicate check); an earlier all-zero line is not detected. -/
theorem duplicate_coefficient_error (order : ℤ) (l1 : CoeffLine)
    (rest : List CoeffLine) (s : ℤ → ℚ)
    (hval : ¬(l1.j > l1.i ∨ l1.i > order))
    (hfresh : s (getCoeffIndex l1.i l1.j) = 0 ∧
      s (getCoeffIndex l1.i l1.j + 1) = 0 ∧
      s (getCoeffIndex l1.i l1.j + 2) = 0 ∧
      s (getCoeffIndex l1.i l1.j + 3) = 0)
    (hnz : l1.g1 ≠ 0 ∨ l1.h1 ≠ 0 ∨ l1.g2 ≠ 0 ∨ l1.h2 ≠ 0)
    (hrep : ∃ l ∈ rest, l.i = l1.i ∧ l.j = l1.j) :
    readCoeffs1 order (l1 :: rest) s = .error .FORMAT_ERROR := by
  obtain ⟨hf0, hf1, hf2, hf3⟩ := hfresh
  unfold readCoeffs1
  rw [if_neg hval, if_neg (by push_neg; exact ⟨hf0, hf1, hf2, hf3⟩)]
  apply readCoeffs1_dup_error order l1.i l1.j rest _ _ hrep
  rcases hnz with h | h | h | h
  · exact Or.inl (by rw [write4_at0]; exact h)
  · exact Or.inr (Or.inl (by rw [write4_at1]; exact h))
  · exact Or.inr (Or.inr (Or.inl (by rw [write4_at2]; exact h)))
  · exact Or.inr (Or.inr (Or.inr (by rw [write4_at3]; exact h)))

/-- Witness for `duplicate_coefficient_error`: the line `(1, 0, 1, 2, 3, 4)`
followed by a repeat of `(1, 0)` is rejected with `FORMAT_ERROR`. -/
theorem duplicate_coefficient_error_witness :
    readCoeffs1 1 [⟨1, 0, 1, 2, 3, 4⟩, ⟨1, 0, 5, 6, 7, 8⟩] (fun _ => 0) =
      .error .FORMAT_ERROR :=
  duplicate_coefficient_error 1 ⟨1, 0, 1, 2, 3, 4⟩ [⟨1, 0, 5, 6, 7, 8⟩]
    (fun _ => 0) (by norm_num) (by norm_num)
    (by norm_num) ⟨⟨1, 0, 5, 6, 7, 8⟩, by norm_num⟩

end Gull
